import Mathlib

/-!
Verification development for the incremental Redis slowlog reader (rslog).

The Rust source is shallowly embedded: the stateful `SlowlogReader` becomes a
structure passed and returned explicitly; the network queries (uptime fetch,
slowlog fetch, reconnection) become explicit `Except`-valued arguments holding
the server's response for the call, so each Rust method is a pure function
from the pre-state and the per-call responses to the result and the
post-state.  Machine integers are modelled as `Nat`/`Int`; the single `as i64`
cast in the source is modelled by an explicit two's-complement wrap.
-/

deriving instance DecidableEq for Except

/-- Error kinds of the redis client library that the source inspects:
`ErrorKind.IoError` drives reconnection, `AuthenticationFailed` and
`ExtensionError` are handled fatally in `main.rs`, `TypeError` is produced by
the uptime parsing in `get_uptime`; every other kind is collapsed into
`Other`. -/
inductive ErrorKind where
  | IoError
  | AuthenticationFailed
  | ExtensionError
  | TypeError
  | Other
deriving DecidableEq, Repr

/-- A redis error: a kind plus a human-readable message. -/
structure RedisError where
  kind : ErrorKind
  msg : String
deriving DecidableEq, Repr

/-- Modelled from the spec: the `SlowlogRecord` value type lives in the
library crate's `slowlog.rs`, which is not among the given sources; its shape
is taken from the spec's data model (identifier, timestamp, duration, client
socket address, client name, command tokens) and its field names from the
uses in `main.rs`.  The identifier is an unsigned 64-bit integer on the wire
(the source casts it with `as i64`), modelled as a `Nat` with explicit
`< 2 ^ 64` bounds where they matter. -/
structure SlowlogRecord where
  id : Nat
  time : Nat
  duration : Nat
  client_socket : String
  client_name : String
  command : List String
deriving DecidableEq, Repr

/-- Two's-complement interpretation of an unsigned 64-bit value as a signed
64-bit value, the meaning of Rust's `r.id as i64` for `id < 2 ^ 64`. -/
def i64OfU64 (n : Nat) : Int :=
  if n < 2 ^ 63 then (n : Int) else (n : Int) - 2 ^ 64

/-- The reader state from `slowlog_reader.rs`, parameterised by the opaque
client and connection types (`redis::Client`, `redis::Connection`).
`last_id` is the watermark (`i64`, sentinel `-1`), `length` the fetch length
(`u32`), `uptime` the last observed uptime (`u64`). -/
structure SlowlogReader (C K : Type) where
  client : C
  con : K
  last_id : Int
  length : Nat
  uptime : Nat
deriving DecidableEq, Repr

/-- Splitting a character list on a separator character, the common core of
Rust's `str::lines` and `str::split(':')`: always yields at least one (maybe
empty) segment, one more per separator occurrence. -/
def splitCh (sep : Char) : List Char → List (List Char)
  | [] => [[]]
  | c :: t =>
    match splitCh sep t with
    | [] => [[]]
    | h :: r => if c = sep then [] :: h :: r else (c :: h) :: r

/-- Body of `rustLines`: every segment except the final one was terminated by
a line feed in the original text, so one trailing carriage return is stripped
from it; a final empty segment (text ending in a line feed) is dropped, and a
final non-empty segment is kept verbatim. -/
def rustLinesAux : List (List Char) → List (List Char)
  | [] => []
  | [last] => if last.isEmpty then [] else [last]
  | h :: t => (if h.getLast? = some '\r' then h.dropLast else h) :: rustLinesAux t

/-- Rust's `str::lines`: split at line feeds or carriage-return-line-feed
pairs, with an optional final line ending. -/
def rustLines (s : List Char) : List (List Char) :=
  rustLinesAux (splitCh '\n' s)

/-- Substring test on character lists, used to model Rust's
`str::contains(&str)`. -/
def containsSub (hay pat : List Char) : Bool :=
  match hay with
  | [] => pat.isEmpty
  | _ :: t => pat.isPrefixOf hay || containsSub t pat

/-- Rust's `str::parse::<u64>()`: an optional leading plus sign, then one or
more decimal digits, value below `2 ^ 64`; anything else is a parse error
(`none`). -/
def parseU64 (s : List Char) : Option Nat :=
  let t := match s with | '+' :: rest => rest | _ => s
  if t.isEmpty then none
  else if t.all Char.isDigit then
    let v := t.foldl (fun a c => a * 10 + (c.toNat - 48)) 0
    if v < 2 ^ 64 then some v else none
  else none

/-- The line selection of `get_uptime`: the first line of the INFO SERVER
response that contains `uptime_in_seconds`
(`lines().filter(..contains..).nth(0)`). -/
def uptimeLine (info : String) : Option (List Char) :=
  ((rustLines info.data).filter fun l => containsSub l "uptime_in_seconds".data).head?

/-- The field selection of `get_uptime`: the second `:`-separated field of the
chosen line (`split(':').nth(1)`). -/
def uptimeField (l : List Char) : Option (List Char) :=
  (splitCh ':' l).get? 1

/-- The `get_uptime` function of `slowlog_reader.rs`.  Its argument is the
result of the `INFO SERVER` query (`query::<String>` may itself fail, and that
error propagates); on a successful query the uptime line is located, split,
and parsed, each failure producing a `TypeError`-kind error with the message
from the source. -/
def get_uptime (infoRes : Except RedisError String) : Except RedisError Nat :=
  match infoRes with
  | Except.error e => Except.error e
  | Except.ok info =>
    match uptimeLine info with
    | none => Except.error ⟨ErrorKind.TypeError, "No uptime line in response from server"⟩
    | some l =>
      match uptimeField l with
      | none => Except.error ⟨ErrorKind.TypeError, "No value for uptime in response from server"⟩
      | some f =>
        match parseU64 f with
        | none => Except.error ⟨ErrorKind.TypeError, "Error while trying to parse uptime from response"⟩
        | some v => Except.ok v

/-- `SlowlogReader::check_for_restart`.  The argument is the result of the
uptime query for this call (the value `get_uptime` returned).  On error the
error propagates and the state is untouched; on success, if the new uptime is
strictly below the stored one the watermark is reset to `-1`, and the stored
uptime is then set to the new value in either case. -/
def SlowlogReader.check_for_restart {C K : Type} (s : SlowlogReader C K)
    (uptimeRes : Except RedisError Nat) :
    Except RedisError Unit × SlowlogReader C K :=
  match uptimeRes with
  | Except.error e => (Except.error e, s)
  | Except.ok uptime =>
    let s1 := if uptime < s.uptime then { s with last_id := -1 } else s
    (Except.ok (), { s1 with uptime := uptime })

/-- `SlowlogReader::get`.  The arguments are the per-call responses: the
uptime query result consumed by `check_for_restart`, and the result of the
`SLOWLOG GET length` query (a list of records, newest first, that the server
returned).  Early errors propagate with whatever state mutations have already
happened (`&mut self`); on success the fetched records are filtered to those
whose identifier, cast to `i64`, exceeds the watermark, the watermark becomes
the first filtered record's cast identifier when one exists, and the filtered
list is returned. -/
def SlowlogReader.get {C K : Type} (s : SlowlogReader C K)
    (uptimeRes : Except RedisError Nat)
    (slowRes : Except RedisError (List SlowlogRecord)) :
    Except RedisError (List SlowlogRecord) × SlowlogReader C K :=
  match s.check_for_restart uptimeRes with
  | (Except.error e, s1) => (Except.error e, s1)
  | (Except.ok _, s1) =>
    match slowRes with
    | Except.error e => (Except.error e, s1)
    | Except.ok records =>
      let new_records := records.filter fun r => decide (s1.last_id < i64OfU64 r.id)
      let s2 := { s1 with
        last_id := ((new_records.head?).map fun r => i64OfU64 r.id).getD s1.last_id }
      (Except.ok new_records, s2)

/-- `SlowlogReader::update_connection`.  The argument is the result of
`client.get_connection()` for this call: on success the stored connection is
replaced, on failure the error propagates and nothing changes. -/
def SlowlogReader.update_connection {C K : Type} (s : SlowlogReader C K)
    (fresh : Except RedisError K) :
    Except RedisError Unit × SlowlogReader C K :=
  match fresh with
  | Except.error e => (Except.error e, s)
  | Except.ok c => (Except.ok (), { s with con := c })

/-- `SlowlogReader::redis_error_handler`.  For an `IoError`-kind error it
attempts `update_connection`, returning the reconnection error when that
fails; for every other kind it does nothing and returns `Ok(())`. -/
def SlowlogReader.redis_error_handler {C K : Type} (s : SlowlogReader C K)
    (fresh : Except RedisError K) (e : RedisError) :
    Except RedisError Unit × SlowlogReader C K :=
  if e.kind = ErrorKind.IoError then
    match s.update_connection fresh with
    | (Except.error e2, s1) => (Except.error e2, s1)
    | (Except.ok _, s1) => (Except.ok (), s1)
  else (Except.ok (), s)

/-- What `error_handler` in `main.rs` does with an error: log and continue
(`IoError`), terminate the process with an exit code (`AuthenticationFailed`
and `ExtensionError` exit with 1), or panic (the `unimplemented!` catch-all
arm). -/
inductive HandlerOutcome where
  | logContinue
  | exitCode (n : Nat)
  | panicked
deriving DecidableEq, Repr

/-- The `error_handler` function of `main.rs`, as a pure map from the error to
the action taken. -/
def error_handler (e : RedisError) : HandlerOutcome :=
  match e.kind with
  | ErrorKind.IoError => HandlerOutcome.logContinue
  | ErrorKind.AuthenticationFailed => HandlerOutcome.exitCode 1
  | ErrorKind.ExtensionError => HandlerOutcome.exitCode 1
  | _ => HandlerOutcome.panicked

/-- Observable outcome of one iteration of the `read_continiously` loop body:
records printed, an error silently discarded (the loop just sleeps and goes
round again), or `error_handler` invoked with some outcome. -/
inductive LoopStep where
  | printed (records : List SlowlogRecord)
  | swallowed
  | handled (h : HandlerOutcome)
deriving DecidableEq, Repr

/-- One iteration of the loop body of `read_continiously` in `main.rs`:
`sl_reader.get().map_err(|e| sl_reader.redis_error_handler(e))`, then
`Ok(records)` prints them, and `Err(inner)` runs `error_handler` only when
`inner` is itself an `Err` (the reconnection error); an `Ok(())` from
`redis_error_handler` is discarded by the `if let`.  The per-call query
responses and the reconnection result are explicit arguments. -/
def loopIteration {C K : Type} (s : SlowlogReader C K)
    (uptimeRes : Except RedisError Nat)
    (slowRes : Except RedisError (List SlowlogRecord))
    (fresh : Except RedisError K) :
    LoopStep × SlowlogReader C K :=
  match s.get uptimeRes slowRes with
  | (Except.ok records, s1) => (LoopStep.printed records, s1)
  | (Except.error e, s1) =>
    match s1.redis_error_handler fresh e with
    | (Except.ok _, s2) => (LoopStep.swallowed, s2)
    | (Except.error e2, s2) => (LoopStep.handled (error_handler e2), s2)

/-! ## Helper lemmas -/

/-- The successful-uptime branch of `check_for_restart`, with the conditional
watermark reset expressed as a single record update. -/
theorem check_for_restart_ok {C K : Type} (s : SlowlogReader C K) (u : Nat) :
    s.check_for_restart (Except.ok u)
      = (Except.ok (),
         { s with last_id := if u < s.uptime then -1 else s.last_id, uptime := u }) := by
  by_cases h : u < s.uptime <;> simp [SlowlogReader.check_for_restart, h]

/-- Head of a filtered list satisfies the filter predicate. -/
theorem filterHead_pred {A : Type} (p : A → Bool) :
    ∀ (l : List A) (a : A), (l.filter p).head? = some a → p a = true := by
  intro l
  induction l with
  | nil => intro a h; simp at h
  | cons x t ih =>
    intro a h
    by_cases hx : p x = true
    · rw [List.filter_cons, if_pos hx] at h
      simp at h
      rw [← h]
      exact hx
    · rw [List.filter_cons, if_neg hx] at h
      exact ih a h

/-- Folding `max` over keys that never exceed the accumulator leaves the
accumulator fixed. -/
theorem foldlMax_const {A : Type} (key : A → Int) :
    ∀ (l : List A) (acc : Int), (∀ r ∈ l, key r ≤ acc) →
      l.foldl (fun w r => max w (key r)) acc = acc := by
  intro l
  induction l with
  | nil => intro acc _; rfl
  | cons a t ih =>
    intro acc h
    have h1 : max acc (key a) = acc := max_eq_left (h a (List.mem_cons_self a t))
    rw [List.foldl_cons, h1]
    exact ih acc fun r hr => h r (List.mem_cons_of_mem a hr)

/-- On a list sorted strictly descending by key, the watermark update of
`SlowlogReader.get` (key of the head of the filtered list, defaulting to the
old watermark) computes the maximum of the old watermark and all keys. -/
theorem sorted_watermark {A : Type} (key : A → Int) (l : List A) :
    ∀ w : Int, l.Pairwise (fun a b => key b < key a) →
      ((((l.filter fun r => decide (w < key r)).head?).map key).getD w)
        = l.foldl (fun acc r => max acc (key r)) w := by
  induction l with
  | nil => intro w _; rfl
  | cons a t ih =>
    intro w hp
    rcases List.pairwise_cons.mp hp with ⟨ha, ht⟩
    by_cases hw : w < key a
    · have hconst : t.foldl (fun acc r => max acc (key r)) (key a) = key a :=
        foldlMax_const key t (key a) fun r hr => le_of_lt (ha r hr)
      simp [List.filter_cons, hw, max_eq_right (le_of_lt hw), hconst]
    · have hmax : max w (key a) = w := max_eq_left (le_of_not_lt hw)
      have hcond : ¬(decide (w < key a) = true) := by simp [hw]
      rw [List.filter_cons, if_neg hcond, ih w ht]
      simp only [List.foldl_cons]
      rw [hmax]

/-- Below `2 ^ 63` the unsigned-to-signed cast is the identity. -/
theorem i64OfU64_small (n : Nat) (h : n < 2 ^ 63) : i64OfU64 n = (n : Int) := by
  unfold i64OfU64
  rw [if_pos h]

/-- At and above `2 ^ 63` (and below `2 ^ 64`) the cast wraps to a value in
`[-2 ^ 63, -1]`. -/
theorem i64OfU64_large (n : Nat) (h1 : 2 ^ 63 ≤ n) (h2 : n < 2 ^ 64) :
    i64OfU64 n ≤ -1 := by
  rw [i64OfU64, if_neg (Nat.not_lt.mpr h1)]
  omega

/-- Evaluation of `get` when both queries succeed. -/
theorem get_ok_ok {C K : Type} (s : SlowlogReader C K) (u : Nat) (l : List SlowlogRecord) :
    s.get (Except.ok u) (Except.ok l)
      = (Except.ok (l.filter fun r =>
            decide ((if u < s.uptime then (-1 : Int) else s.last_id) < i64OfU64 r.id)),
         { s with
           last_id := (((l.filter fun r =>
              decide ((if u < s.uptime then (-1 : Int) else s.last_id) < i64OfU64 r.id)).head?).map
                fun r => i64OfU64 r.id).getD (if u < s.uptime then -1 else s.last_id),
           uptime := u }) := by
  rw [SlowlogReader.get, check_for_restart_ok]

/-! ## Claim theorems -/

/-- C1 (corrected, counterexample): a poll in which the uptime query succeeds
with uptime 100 but the slowlog fetch fails returns the fetch error, yet the
stored uptime has changed from 0 to 100 — the failed `get()` is not
state-neutral. -/
theorem failed_fetch_mutates_uptime_cex :
    ((⟨(), (), 5, 128, 0⟩ : SlowlogReader Unit Unit).get (Except.ok 100)
        (Except.error ⟨ErrorKind.IoError, "broken pipe"⟩)).1
      = Except.error ⟨ErrorKind.IoError, "broken pipe"⟩
    ∧ (((⟨(), (), 5, 128, 0⟩ : SlowlogReader Unit Unit).get (Except.ok 100)
        (Except.error ⟨ErrorKind.IoError, "broken pipe"⟩)).2).uptime = 100
    ∧ ((⟨(), (), 5, 128, 0⟩ : SlowlogReader Unit Unit) : SlowlogReader Unit Unit).uptime = 0 := by
  exact ⟨rfl, rfl, rfl⟩

/-- C1 (amended): when the uptime query fails, `get()` returns that error and
the whole state is unchanged; when the uptime query succeeds with value `u`
and the slowlog fetch fails, `get()` returns the fetch error, the watermark is
not advanced (it is `-1` if `u` signalled a restart and the old watermark
otherwise), the stored uptime becomes `u`, and the fetch length is
unchanged. -/
theorem failed_poll_state {C K : Type} :
    (∀ (s : SlowlogReader C K) (e : RedisError)
        (slowRes : Except RedisError (List SlowlogRecord)),
        s.get (Except.error e) slowRes = (Except.error e, s))
    ∧ (∀ (s : SlowlogReader C K) (u : Nat) (e : RedisError),
        (s.get (Except.ok u) (Except.error e)).1 = Except.error e
        ∧ ((s.get (Except.ok u) (Except.error e)).2).uptime = u
        ∧ ((s.get (Except.ok u) (Except.error e)).2).last_id
            = (if u < s.uptime then (-1 : Int) else s.last_id)
        ∧ ((s.get (Except.ok u) (Except.error e)).2).length = s.length) := by
  constructor
  · intro s e slowRes
    rfl
  · intro s u e
    rw [SlowlogReader.get, check_for_restart_ok]
    exact ⟨rfl, rfl, rfl, rfl⟩

/-- C2 (code bug): an authentication failure raised by `get()` inside the
`read_continiously` loop is classified by `redis_error_handler` as non-IO,
which returns `Ok(())`; the `if let Err` in the loop then discards it, so the
iteration ends in `swallowed` — the loop sleeps and retries, and
`error_handler` (which would terminate the process with exit code 1, as the
second conjunct shows) is never reached. -/
theorem auth_error_swallowed_in_follow_loop :
    loopIteration (⟨(), (), 5, 128, 200⟩ : SlowlogReader Unit Unit)
        (Except.error ⟨ErrorKind.AuthenticationFailed, "invalid password"⟩)
        (Except.ok []) (Except.ok ())
      = (LoopStep.swallowed, ⟨(), (), 5, 128, 200⟩)
    ∧ error_handler ⟨ErrorKind.AuthenticationFailed, "invalid password"⟩
      = HandlerOutcome.exitCode 1 := by
  exact ⟨by decide, by decide⟩

/-- C9 (confirmed): `redis_error_handler` on a non-IO error returns `Ok(())`
with the state (connection included) untouched and the error discarded; it
returns an error only when the input error is IO-class and reconnection
failed, and then the returned error is the reconnection error and the state is
untouched. -/
theorem non_io_error_discarded {C K : Type} :
    (∀ (s : SlowlogReader C K) (fresh : Except RedisError K) (e : RedisError),
        e.kind ≠ ErrorKind.IoError → s.redis_error_handler fresh e = (Except.ok (), s))
    ∧ (∀ (s : SlowlogReader C K) (fresh : Except RedisError K) (e e2 : RedisError)
        (s2 : SlowlogReader C K),
        s.redis_error_handler fresh e = (Except.error e2, s2) →
        e.kind = ErrorKind.IoError ∧ fresh = Except.error e2 ∧ s2 = s) := by
  constructor
  · intro s fresh e h
    rw [SlowlogReader.redis_error_handler, if_neg h]
  · intro s fresh e e2 s2 h
    by_cases hk : e.kind = ErrorKind.IoError
    · rw [SlowlogReader.redis_error_handler, if_pos hk] at h
      cases fresh with
      | error e3 =>
        simp [SlowlogReader.update_connection] at h
        exact ⟨hk, by rw [h.1], h.2.symm⟩
      | ok c =>
        simp [SlowlogReader.update_connection] at h
    · rw [SlowlogReader.redis_error_handler, if_neg hk] at h
      simp at h

/-- Witness for C9: a concrete authentication error is discarded and the
concrete state returned unchanged. -/
theorem non_io_error_discarded_witness :
    (⟨(), (), 5, 128, 0⟩ : SlowlogReader Unit Unit).redis_error_handler (Except.ok ())
        ⟨ErrorKind.AuthenticationFailed, "invalid password"⟩
      = (Except.ok (), (⟨(), (), 5, 128, 0⟩ : SlowlogReader Unit Unit)) :=
  (non_io_error_discarded).1 ⟨(), (), 5, 128, 0⟩ (Except.ok ())
    ⟨ErrorKind.AuthenticationFailed, "invalid password"⟩ (by decide)

/-- C10 (confirmed): `update_connection` only ever touches the stored
connection — watermark, uptime and fetch length are unchanged whether the
reconnection succeeded or failed. -/
theorem update_connection_frame {C K : Type} (s : SlowlogReader C K)
    (fresh : Except RedisError K) :
    ((s.update_connection fresh).2).last_id = s.last_id
    ∧ ((s.update_connection fresh).2).uptime = s.uptime
    ∧ ((s.update_connection fresh).2).length = s.length := by
  cases fresh <;> exact ⟨rfl, rfl, rfl⟩

/-- The watermark update of `get` never moves the watermark below its input
value: the head of the filtered list, when present, passed the
strictly-greater filter. -/
theorem watermark_update_ge {A : Type} (key : A → Int) (l : List A) (w : Int) :
    w ≤ (((l.filter fun r => decide (w < key r)).head?).map key).getD w := by
  cases hh : (l.filter fun r => decide (w < key r)).head? with
  | none => exact le_refl w
  | some r =>
    have hp := filterHead_pred (fun r => decide (w < key r)) l r hh
    exact le_of_lt (of_decide_eq_true hp)

/-- C6 (confirmed): on a successful INFO SERVER query, if the
`uptime_in_seconds` line is missing, the second `:`-separated field is
missing, or that field does not parse as an unsigned 64-bit integer, then
`get_uptime` returns an error, and every error it produces on that path has
kind `TypeError` — never the transient `IoError` class. -/
theorem uptime_parse_error_kind (info : String) :
    ((uptimeLine info = none
        ∨ (∃ l, uptimeLine info = some l ∧ uptimeField l = none)
        ∨ (∃ l f, uptimeLine info = some l ∧ uptimeField l = some f ∧ parseU64 f = none)) →
      ∃ e, get_uptime (Except.ok info) = Except.error e ∧ e.kind ≠ ErrorKind.IoError)
    ∧ (∀ e, get_uptime (Except.ok info) = Except.error e → e.kind = ErrorKind.TypeError) := by
  constructor
  · intro h
    rcases h with h | ⟨l, hl, hf⟩ | ⟨l, f, hl, hf, hp⟩
    · refine ⟨⟨ErrorKind.TypeError, "No uptime line in response from server"⟩, ?_, by decide⟩
      simp [get_uptime, h]
    · refine ⟨⟨ErrorKind.TypeError, "No value for uptime in response from server"⟩, ?_, by decide⟩
      simp [get_uptime, hl, hf]
    · refine ⟨⟨ErrorKind.TypeError, "Error while trying to parse uptime from response"⟩, ?_, by decide⟩
      simp [get_uptime, hl, hf, hp]
  · intro e he
    cases hL : uptimeLine info with
    | none =>
      simp [get_uptime, hL] at he
      rw [← he]
    | some l =>
      cases hF : uptimeField l with
      | none =>
        simp [get_uptime, hL, hF] at he
        rw [← he]
      | some f =>
        cases hP : parseU64 f with
        | none =>
          simp [get_uptime, hL, hF, hP] at he
          rw [← he]
        | some v =>
          simp [get_uptime, hL, hF, hP] at he

/-- Witness for C6: the empty response has no uptime line, and the resulting
error is not IO-class. -/
theorem uptime_parse_error_kind_witness :
    ∃ e, get_uptime (Except.ok "") = Except.error e ∧ e.kind ≠ ErrorKind.IoError :=
  (uptime_parse_error_kind "").1 (Or.inl (by decide))

/-- C8 (confirmed): a fetched record whose identifier is at least `2 ^ 63`
(and below `2 ^ 64`) casts to a negative signed value, so whenever the stored
watermark is the sentinel `-1` or anything above it, a successful `get()`
never returns that record; and in any successful poll whose returned sequence
begins with such a record, the new watermark is its negative wrapped value. -/
theorem large_id_wraps_negative {C K : Type} (s : SlowlogReader C K) (u : Nat)
    (l : List SlowlogRecord) (r : SlowlogRecord)
    (hmem : r ∈ l) (hbig : 2 ^ 63 ≤ r.id) (hlt : r.id < 2 ^ 64) (hw : -1 ≤ s.last_id) :
    i64OfU64 r.id < 0
    ∧ (∀ recs, (s.get (Except.ok u) (Except.ok l)).1 = Except.ok recs → r ∉ recs)
    ∧ (∀ (t : SlowlogReader C K) (v : Nat) (m : List SlowlogRecord)
        (recs : List SlowlogRecord),
        (t.get (Except.ok v) (Except.ok m)).1 = Except.ok recs → recs.head? = some r →
        ((t.get (Except.ok v) (Except.ok m)).2).last_id < 0) := by
  have hneg : i64OfU64 r.id ≤ -1 := i64OfU64_large r.id hbig hlt
  refine ⟨lt_of_le_of_lt hneg (by norm_num), ?_, ?_⟩
  · intro recs hrecs hmemr
    rw [get_ok_ok] at hrecs
    simp only [Except.ok.injEq] at hrecs
    rw [← hrecs] at hmemr
    have hpred := (List.mem_filter.mp hmemr).2
    have hlt2 : (if u < s.uptime then (-1 : Int) else s.last_id) < i64OfU64 r.id :=
      of_decide_eq_true hpred
    have hge : (-1 : Int) ≤ (if u < s.uptime then (-1 : Int) else s.last_id) := by
      by_cases h : u < s.uptime
      · rw [if_pos h]
      · rw [if_neg h]; exact hw
    exact absurd hlt2 (not_lt.mpr (le_trans hneg hge))
  · intro t v m recs hrecs hhead
    rw [get_ok_ok] at hrecs
    simp only [Except.ok.injEq] at hrecs
    rw [← hrecs] at hhead
    rw [get_ok_ok]
    show ((((m.filter fun x =>
        decide ((if v < t.uptime then (-1 : Int) else t.last_id) < i64OfU64 x.id)).head?).map
          fun x => i64OfU64 x.id).getD (if v < t.uptime then -1 else t.last_id)) < 0
    rw [hhead]
    exact lt_of_le_of_lt hneg (by norm_num)

/-- Witness for C8: a record with identifier exactly `2 ^ 63`, polled from the
freshly constructed state (watermark `-1`), is excluded from the result. -/
theorem large_id_wraps_negative_witness :
    i64OfU64 ((⟨2 ^ 63, 0, 0, "", "", []⟩ : SlowlogRecord)).id < 0
    ∧ (∀ recs, ((⟨(), (), -1, 128, 0⟩ : SlowlogReader Unit Unit).get (Except.ok 5)
          (Except.ok [⟨2 ^ 63, 0, 0, "", "", []⟩])).1 = Except.ok recs →
        (⟨2 ^ 63, 0, 0, "", "", []⟩ : SlowlogRecord) ∉ recs)
    ∧ (∀ (t : SlowlogReader Unit Unit) (v : Nat) (m : List SlowlogRecord)
        (recs : List SlowlogRecord),
        (t.get (Except.ok v) (Except.ok m)).1 = Except.ok recs →
        recs.head? = some (⟨2 ^ 63, 0, 0, "", "", []⟩ : SlowlogRecord) →
        ((t.get (Except.ok v) (Except.ok m)).2).last_id < 0) :=
  large_id_wraps_negative (⟨(), (), -1, 128, 0⟩ : SlowlogReader Unit Unit) 5
    [⟨2 ^ 63, 0, 0, "", "", []⟩] ⟨2 ^ 63, 0, 0, "", "", []⟩
    (by decide) (by decide) (by decide) (by decide)

/-- C4 (corrected, counterexample): a restart poll (uptime drops from 100 to
2) that fetches a single record with identifier `2 ^ 63` returns the empty
sequence — the fetched entry is not returned even though the watermark was
reset, because its identifier wraps negative under the cast. -/
theorem restart_large_id_not_returned_cex :
    ((⟨(), (), 5, 128, 100⟩ : SlowlogReader Unit Unit).get (Except.ok 2)
        (Except.ok [⟨2 ^ 63, 0, 0, "", "", []⟩])).1 = Except.ok []
    ∧ (2 : Nat) < 100 := by
  exact ⟨by decide, by decide⟩

/-- C4 (amended): on a successful poll whose observed uptime is strictly below
the stored one, the watermark is reset to the sentinel before filtering, so
the result is the fetch filtered against `-1` — in particular every fetched
entry with identifier below `2 ^ 63` is returned, regardless of how its
identifier compares to the old watermark; when the observed uptime is not
below the stored one the watermark is not reset and the filter uses the old
watermark; in both cases the stored uptime becomes the observed value. -/
theorem restart_resets_before_filter {C K : Type} (s : SlowlogReader C K) (u : Nat)
    (l : List SlowlogRecord) :
    (u < s.uptime →
      (s.get (Except.ok u) (Except.ok l)).1
        = Except.ok (l.filter fun r => decide ((-1 : Int) < i64OfU64 r.id))
      ∧ ∀ r ∈ l, r.id < 2 ^ 63 →
          ∀ recs, (s.get (Except.ok u) (Except.ok l)).1 = Except.ok recs → r ∈ recs)
    ∧ (s.uptime ≤ u →
      (s.get (Except.ok u) (Except.ok l)).1
        = Except.ok (l.filter fun r => decide (s.last_id < i64OfU64 r.id)))
    ∧ ((s.get (Except.ok u) (Except.ok l)).2).uptime = u := by
  refine ⟨?_, ?_, ?_⟩
  · intro h
    constructor
    · rw [get_ok_ok, if_pos h]
    · intro r hr hsmall recs hrecs
      rw [get_ok_ok, if_pos h] at hrecs
      simp only [Except.ok.injEq] at hrecs
      rw [← hrecs]
      refine List.mem_filter.mpr ⟨hr, ?_⟩
      rw [i64OfU64_small r.id hsmall]
      exact decide_eq_true (lt_of_lt_of_le (by norm_num) (Int.natCast_nonneg r.id))
  · intro h
    rw [get_ok_ok, if_neg (Nat.not_lt.mpr h)]
  · rw [get_ok_ok]

/-- Witness for C4: a restart poll returns a record whose identifier 3 is
below the old watermark 5. -/
theorem restart_resets_before_filter_witness :
    ((⟨(), (), 5, 128, 100⟩ : SlowlogReader Unit Unit).get (Except.ok 2)
        (Except.ok [⟨3, 0, 0, "", "", []⟩])).1
      = Except.ok ([(⟨3, 0, 0, "", "", []⟩ : SlowlogRecord)].filter fun r =>
          decide ((-1 : Int) < i64OfU64 r.id))
    ∧ ∀ r ∈ [(⟨3, 0, 0, "", "", []⟩ : SlowlogRecord)], r.id < 2 ^ 63 →
        ∀ recs, ((⟨(), (), 5, 128, 100⟩ : SlowlogReader Unit Unit).get (Except.ok 2)
            (Except.ok [⟨3, 0, 0, "", "", []⟩])).1 = Except.ok recs → r ∈ recs :=
  (restart_resets_before_filter (⟨(), (), 5, 128, 100⟩ : SlowlogReader Unit Unit) 2
      [⟨3, 0, 0, "", "", []⟩]).1 (by decide)

/-- C5 (corrected, counterexample): a successful restart poll (uptime drops
from 100 to 2) fetching a record with identifier 5 ends with watermark 5,
which is neither at least the previous watermark 100 nor the sentinel `-1`:
between calls the watermark after a restart is not literally the sentinel. -/
theorem restart_watermark_between_cex :
    (((⟨(), (), 100, 128, 100⟩ : SlowlogReader Unit Unit).get (Except.ok 2)
        (Except.ok [⟨5, 0, 0, "", "", []⟩])).2).last_id = 5
    ∧ ¬((100 : Int) ≤ 5) ∧ ((5 : Int) ≠ -1) ∧ (2 : Nat) < 100 := by
  exact ⟨by decide, by decide, by decide, by decide⟩

set_option maxHeartbeats 1000000 in
/-- C5 (amended): across a successful poll with no restart the watermark is
non-decreasing; when a restart is detected the watermark is reset to the
sentinel `-1` and then updated from the fetched entries alone (head of the
fetch filtered against `-1`), so the post-call watermark is at least the
sentinel but need not equal it. -/
theorem watermark_monotonicity {C K : Type} (s : SlowlogReader C K) (u : Nat)
    (l : List SlowlogRecord) :
    (s.uptime ≤ u → s.last_id ≤ ((s.get (Except.ok u) (Except.ok l)).2).last_id)
    ∧ (u < s.uptime →
        ((s.get (Except.ok u) (Except.ok l)).2).last_id
          = (((l.filter fun r => decide ((-1 : Int) < i64OfU64 r.id)).head?).map
              fun r => i64OfU64 r.id).getD (-1)
        ∧ (-1 : Int) ≤ ((s.get (Except.ok u) (Except.ok l)).2).last_id) := by
  constructor
  · intro h
    rw [get_ok_ok, if_neg (Nat.not_lt.mpr h)]
    exact watermark_update_ge (fun r => i64OfU64 r.id) l s.last_id
  · intro h
    constructor
    · rw [get_ok_ok, if_pos h]
    · rw [get_ok_ok, if_pos h]
      exact watermark_update_ge (fun r => i64OfU64 r.id) l (-1)

/-- Witness for C5: the no-restart conjunct at the concrete first poll of the
spec's scenario (watermark `-1`, entries 5, 4, 3). -/
theorem watermark_monotonicity_witness :
    (-1 : Int) ≤ (((⟨(), (), -1, 128, 0⟩ : SlowlogReader Unit Unit).get (Except.ok 100)
        (Except.ok [⟨5, 0, 0, "", "", []⟩, ⟨4, 0, 0, "", "", []⟩,
          ⟨3, 0, 0, "", "", []⟩])).2).last_id :=
  (watermark_monotonicity (⟨(), (), -1, 128, 0⟩ : SlowlogReader Unit Unit) 100
      [⟨5, 0, 0, "", "", []⟩, ⟨4, 0, 0, "", "", []⟩, ⟨3, 0, 0, "", "", []⟩]).1 (by decide)

/-- One successful no-restart poll on an arbitrary state, fetching a list of
records with identifiers below `2 ^ 63`, sorted newest-first: the result is
the fetch filtered strictly above the watermark, and the new watermark is the
maximum of the old watermark and all fetched identifiers. -/
theorem dedup_aux {C K : Type} (s1 : SlowlogReader C K) (u2 : Nat)
    (l2 : List SlowlogRecord)
    (hdesc : l2.Pairwise fun a b => i64OfU64 b.id < i64OfU64 a.id)
    (hsmall : ∀ r ∈ l2, r.id < 2 ^ 63)
    (hnr : s1.uptime ≤ u2) :
    (s1.get (Except.ok u2) (Except.ok l2)).1
      = Except.ok (l2.filter fun r => decide (s1.last_id < (r.id : Int)))
    ∧ ((s1.get (Except.ok u2) (Except.ok l2)).2).last_id
      = (l2.map fun r => (r.id : Int)).foldl max s1.last_id := by
  have hcongr : (l2.filter fun r => decide (s1.last_id < i64OfU64 r.id))
      = l2.filter fun r => decide (s1.last_id < (r.id : Int)) :=
    List.filter_congr fun r hr => by rw [i64OfU64_small r.id (hsmall r hr)]
  constructor
  · rw [get_ok_ok, if_neg (Nat.not_lt.mpr hnr), hcongr]
  · rw [get_ok_ok, if_neg (Nat.not_lt.mpr hnr)]
    have hmap : (l2.map fun r => (r.id : Int)) = l2.map fun r => i64OfU64 r.id :=
      List.map_congr_left fun r hr => (i64OfU64_small r.id (hsmall r hr)).symm
    rw [hmap, List.foldl_map]
    exact sorted_watermark (fun r => i64OfU64 r.id) l2 s1.last_id hdesc

/-- C3 (corrected, counterexample): starting from a stale high watermark 100,
two successful no-restart polls each fetch the single record with identifier
5; the second poll's watermark stays 100, while the maximum identifier seen
across both polls (the fold of `max` over both fetches from the sentinel) is
5 — the final watermark is not the maximum identifier across the polls. -/
theorem stale_watermark_not_max_cex :
    ((((⟨(), (), 100, 128, 0⟩ : SlowlogReader Unit Unit).get (Except.ok 10)
        (Except.ok [⟨5, 0, 0, "", "", []⟩])).2).get (Except.ok 20)
        (Except.ok [⟨5, 0, 0, "", "", []⟩])).2.last_id = 100
    ∧ ((((⟨(), (), 100, 128, 0⟩ : SlowlogReader Unit Unit).get (Except.ok 10)
        (Except.ok [⟨5, 0, 0, "", "", []⟩])).2).get (Except.ok 20)
        (Except.ok [⟨5, 0, 0, "", "", []⟩])).1 = Except.ok []
    ∧ ((([⟨5, 0, 0, "", "", []⟩] ++ [⟨5, 0, 0, "", "", []⟩] : List SlowlogRecord)).map
        fun r => (r.id : Int)).foldl max (-1) = 5
    ∧ ((100 : Int) ≠ 5) := by
  exact ⟨by decide, by decide, by decide, by decide⟩

/-- C3 (amended): for two consecutive successful polls with no restart
detected in between, where the second fetch is newest-first with identifiers
below `2 ^ 63`, the second poll returns exactly the fetched entries whose
identifier strictly exceeds the watermark established by the first poll, and
the watermark after the second poll is the maximum of that watermark and the
identifiers fetched in the second poll. -/
theorem dedup_watermark_update {C K : Type} (s0 : SlowlogReader C K) (u1 u2 : Nat)
    (l1 l2 : List SlowlogRecord)
    (hdesc : l2.Pairwise fun a b => i64OfU64 b.id < i64OfU64 a.id)
    (hsmall : ∀ r ∈ l2, r.id < 2 ^ 63)
    (hnr : ((s0.get (Except.ok u1) (Except.ok l1)).2).uptime ≤ u2) :
    (((s0.get (Except.ok u1) (Except.ok l1)).2).get (Except.ok u2) (Except.ok l2)).1
      = Except.ok (l2.filter fun r =>
          decide (((s0.get (Except.ok u1) (Except.ok l1)).2).last_id < (r.id : Int)))
    ∧ ((((s0.get (Except.ok u1) (Except.ok l1)).2).get (Except.ok u2) (Except.ok l2)).2).last_id
      = (l2.map fun r => (r.id : Int)).foldl max
          ((s0.get (Except.ok u1) (Except.ok l1)).2).last_id :=
  dedup_aux ((s0.get (Except.ok u1) (Except.ok l1)).2) u2 l2 hdesc hsmall hnr

/-- Witness for C3: the spec's scenario extended — first poll from the fresh
state sees entries 5, 4, 3 at uptime 100; the second poll at uptime 105
fetches 7, 6, 5 and must return exactly the entries above watermark 5 with
new watermark 7. -/
theorem dedup_watermark_update_witness :
    ((((⟨(), (), -1, 128, 0⟩ : SlowlogReader Unit Unit).get (Except.ok 100)
        (Except.ok [⟨5, 0, 0, "", "", []⟩, ⟨4, 0, 0, "", "", []⟩,
          ⟨3, 0, 0, "", "", []⟩])).2).get (Except.ok 105)
        (Except.ok [⟨7, 0, 0, "", "", []⟩, ⟨6, 0, 0, "", "", []⟩,
          ⟨5, 0, 0, "", "", []⟩])).1
      = Except.ok (([⟨7, 0, 0, "", "", []⟩, ⟨6, 0, 0, "", "", []⟩,
          ⟨5, 0, 0, "", "", []⟩] : List SlowlogRecord).filter fun r =>
          decide ((((⟨(), (), -1, 128, 0⟩ : SlowlogReader Unit Unit).get (Except.ok 100)
            (Except.ok [⟨5, 0, 0, "", "", []⟩, ⟨4, 0, 0, "", "", []⟩,
              ⟨3, 0, 0, "", "", []⟩])).2).last_id < (r.id : Int)))
    ∧ (((((⟨(), (), -1, 128, 0⟩ : SlowlogReader Unit Unit).get (Except.ok 100)
        (Except.ok [⟨5, 0, 0, "", "", []⟩, ⟨4, 0, 0, "", "", []⟩,
          ⟨3, 0, 0, "", "", []⟩])).2).get (Except.ok 105)
        (Except.ok [⟨7, 0, 0, "", "", []⟩, ⟨6, 0, 0, "", "", []⟩,
          ⟨5, 0, 0, "", "", []⟩])).2).last_id
      = (([⟨7, 0, 0, "", "", []⟩, ⟨6, 0, 0, "", "", []⟩,
          ⟨5, 0, 0, "", "", []⟩] : List SlowlogRecord).map fun r => (r.id : Int)).foldl max
          (((⟨(), (), -1, 128, 0⟩ : SlowlogReader Unit Unit).get (Except.ok 100)
            (Except.ok [⟨5, 0, 0, "", "", []⟩, ⟨4, 0, 0, "", "", []⟩,
              ⟨3, 0, 0, "", "", []⟩])).2).last_id :=
  dedup_watermark_update (⟨(), (), -1, 128, 0⟩ : SlowlogReader Unit Unit) 100 105
    [⟨5, 0, 0, "", "", []⟩, ⟨4, 0, 0, "", "", []⟩, ⟨3, 0, 0, "", "", []⟩]
    [⟨7, 0, 0, "", "", []⟩, ⟨6, 0, 0, "", "", []⟩, ⟨5, 0, 0, "", "", []⟩]
    (by decide) (by decide) (by decide)

/-- One successful no-restart poll whose fetch is empty or has maximum cast
identifier equal to the current watermark returns nothing and leaves the
watermark unchanged. -/
theorem empty_poll_aux {C K : Type} (s1 : SlowlogReader C K) (u2 : Nat)
    (l2 : List SlowlogRecord)
    (hnr : s1.uptime ≤ u2)
    (hmax : l2 = [] ∨ (l2.map fun r => i64OfU64 r.id).maximum = some s1.last_id) :
    (s1.get (Except.ok u2) (Except.ok l2)).1 = Except.ok []
    ∧ ((s1.get (Except.ok u2) (Except.ok l2)).2).last_id = s1.last_id := by
  have hfilter : (l2.filter fun r => decide (s1.last_id < i64OfU64 r.id)) = [] := by
    rcases hmax with h | h
    · rw [h]; rfl
    · refine List.filter_eq_nil_iff.mpr fun r hr => ?_
      have hle : i64OfU64 r.id ≤ s1.last_id :=
        List.le_maximum_of_mem (List.mem_map_of_mem (fun r => i64OfU64 r.id) hr) h
      simp only [decide_eq_true_eq]
      exact not_lt.mpr hle
  constructor
  · rw [get_ok_ok, if_neg (Nat.not_lt.mpr hnr), hfilter]
  · rw [get_ok_ok, if_neg (Nat.not_lt.mpr hnr), hfilter]
    rfl

/-- C7 (confirmed): two consecutive successful polls with no restart in
between, where the second fetch is empty or its maximum cast identifier equals
the watermark established by the first poll: the second poll returns the empty
sequence and the watermark is unchanged. -/
theorem idempotent_empty_poll {C K : Type} (s0 : SlowlogReader C K) (u1 u2 : Nat)
    (l1 l2 : List SlowlogRecord)
    (hnr : ((s0.get (Except.ok u1) (Except.ok l1)).2).uptime ≤ u2)
    (hmax : l2 = [] ∨ (l2.map fun r => i64OfU64 r.id).maximum
        = some (((s0.get (Except.ok u1) (Except.ok l1)).2).last_id)) :
    (((s0.get (Except.ok u1) (Except.ok l1)).2).get (Except.ok u2) (Except.ok l2)).1
      = Except.ok []
    ∧ ((((s0.get (Except.ok u1) (Except.ok l1)).2).get (Except.ok u2) (Except.ok l2)).2).last_id
      = ((s0.get (Except.ok u1) (Except.ok l1)).2).last_id :=
  empty_poll_aux ((s0.get (Except.ok u1) (Except.ok l1)).2) u2 l2 hnr hmax

/-- Witness for C7: after the first poll establishes watermark 5 at uptime
100, a second poll at uptime 105 fetching the same entries 5, 4, 3 returns
nothing and keeps watermark 5. -/
theorem idempotent_empty_poll_witness :
    ((((⟨(), (), -1, 128, 0⟩ : SlowlogReader Unit Unit).get (Except.ok 100)
        (Except.ok [⟨5, 0, 0, "", "", []⟩, ⟨4, 0, 0, "", "", []⟩,
          ⟨3, 0, 0, "", "", []⟩])).2).get (Except.ok 105)
        (Except.ok [⟨5, 0, 0, "", "", []⟩, ⟨4, 0, 0, "", "", []⟩,
          ⟨3, 0, 0, "", "", []⟩])).1 = Except.ok []
    ∧ (((((⟨(), (), -1, 128, 0⟩ : SlowlogReader Unit Unit).get (Except.ok 100)
        (Except.ok [⟨5, 0, 0, "", "", []⟩, ⟨4, 0, 0, "", "", []⟩,
          ⟨3, 0, 0, "", "", []⟩])).2).get (Except.ok 105)
        (Except.ok [⟨5, 0, 0, "", "", []⟩, ⟨4, 0, 0, "", "", []⟩,
          ⟨3, 0, 0, "", "", []⟩])).2).last_id
      = (((⟨(), (), -1, 128, 0⟩ : SlowlogReader Unit Unit).get (Except.ok 100)
        (Except.ok [⟨5, 0, 0, "", "", []⟩, ⟨4, 0, 0, "", "", []⟩,
          ⟨3, 0, 0, "", "", []⟩])).2).last_id :=
  idempotent_empty_poll (⟨(), (), -1, 128, 0⟩ : SlowlogReader Unit Unit) 100 105
    [⟨5, 0, 0, "", "", []⟩, ⟨4, 0, 0, "", "", []⟩, ⟨3, 0, 0, "", "", []⟩]
    [⟨5, 0, 0, "", "", []⟩, ⟨4, 0, 0, "", "", []⟩, ⟨3, 0, 0, "", "", []⟩]
    (by decide) (Or.inr (by decide))
